import Mathlib

/-!
Verification of the pypackmol packing-session core (`src/pypackmol.py`).

The module wraps the external `packmol` program: a `Packmol` session stores
an ordered list of structure entries and a mapping of options, serializes
them into the packmol line-oriented input format, runs the external program,
and classifies the captured output into success / soft failure / hard
failure.  `autosize` linearly escalates the sphere radius until a run
succeeds.

Modelling conventions:
* Python option values (strings, numbers, `None`) become the `Value` type;
  rationals stand in for Python ints/floats.
* Python dicts (`self._options`, per-entry keyword options) are modelled as
  insertion-ordered association lists; assigning to an existing key updates
  its value in place (`setOption`).  The source is Python 2, whose dict
  iteration order is hash-based and implementation-defined, so the list
  order here is a modelling choice: the theorems below rely only on which
  entries a dict holds, never on the iteration order of its items.
* The serialized input file is modelled as a list of structured `Line`s,
  one per `inp_file.write` call of `_prepare_input_file`.
* Everything external to the module (the subprocess exit status and captured
  stdout, `time.clock()`, the Python `hash`, the optional openbabel energy) is
  supplied through a `RunEnv` record, one per run invocation.
* Raised exceptions become `Except PackError`: `FailToPack` is the dedicated
  soft-failure class; the two hard failures are raised as plain `Exception`
  and the unsupported-region error as `NotImplementedError`, so only
  `PackError.failToPack` is caught by `except FailToPack`.
-/

/-- A Python option value: a string, a number (ints and floats collapsed
into `Rat`), or `None`. -/
inductive Value where
  | vstr (s : String)
  | vnum (q : Rat)
  | vnone
deriving DecidableEq, Repr

/-- Python truthiness of a `Value`: `None`, `""` and `0` are falsy. -/
def Value.truthy : Value → Bool
  | .vnone => false
  | .vstr s => !(s == "")
  | .vnum q => !(q == 0)

/-- An association list modelling a Python dict of option values.  The
list order is the insertion order, which is a modelling convention only:
CPython 2 iterates dict items in hash order, so no theorem below depends
on the position of an entry, only on its presence and value. -/
abbrev Options := List (String × Value)

/-- Dict assignment `d[k] = v`: overwrite in place when the key exists,
append otherwise. -/
def setOption : Options → String → Value → Options
  | [], k, v => [(k, v)]
  | (k', v') :: rest, k, v =>
    if k' = k then (k, v) :: rest else (k', v') :: setOption rest k v

/-- Dict lookup `d[k]`.  All internal keys are present from the default
option table, so the `Value.vnone` fallback for a missing key is never hit
on states reachable from `packmolInit`. -/
def getOpt (opts : Options) (k : String) : Value :=
  match opts.lookup k with
  | some v => v
  | none => Value.vnone

/-- One entry of `self._structure_list`: the name (path) of the normalized
xyz temp file produced by `convert_to_xyz`, the repeat count, and the
per-entry keyword options. -/
structure StructureEntry where
  structName : String
  number : Int
  options : Options
deriving DecidableEq, Repr

/-- One line of the generated packmol input file, one constructor per
`inp_file.write` call in `_prepare_input_file`.  Global option lines
(`"{0} {1}"`) and per-entry option lines (`"  {0} {1}"`) are rendered
differently in the source and hence kept distinct here. -/
inductive Line where
  | filetype
  | seedLine (n : Int)
  | optionLine (k : String) (v : Value)
  | structureLine (path : String)
  | numberLine (n : Int)
  | insideSphere (r : Value)
  | entryOption (k : String) (v : Value)
  | endStructure
deriving DecidableEq, Repr

/-- Is this line a global (pass-through) option line? -/
def Line.isOptionLine : Line → Bool
  | .optionLine _ _ => true
  | _ => false

/-- Is this line the opening line of a structure block? -/
def Line.isStructLine : Line → Bool
  | .structureLine _ => true
  | _ => false

/-- The exceptions the module can raise during serialization or a run.
`unsupportedRegion` is the `NotImplementedError` of `_prepare_input_file`;
`hardExit` and `hardError` are the two plain `Exception`s of `pack`;
`failToPack` is the dedicated `FailToPack` class. -/
inductive PackError where
  | unsupportedRegion
  | hardExit (code : Int)
  | hardError
  | failToPack
deriving DecidableEq, Repr

/-- Whether `except FailToPack` catches this exception: `FailToPack` is the
only one of the four raised values that is an instance of `FailToPack`. -/
def PackError.isFailToPack : PackError → Bool
  | .failToPack => true
  | _ => false

/-- The result dict returned by a successful `pack` run:
`{"filename": ..., "packmol output": ...}` plus the `"energy"` key added
when openbabel is available. -/
structure RunResult where
  filename : Value
  output : String
  energy : Option Rat
deriving DecidableEq, Repr

/-- Everything external to the module that one run observes: the subprocess
exit status and captured stdout, `time.clock()`, the Python `hash` function,
and the openbabel availability flag together with the energy its force
field would report. -/
structure RunEnv where
  exitCode : Int
  output : String
  clock : Rat
  pyhash : Value → Int
  hasOpenbabel : Bool
  energy : Rat

/-- The mutable state of a `Packmol` instance: `_structure_list`,
`_options`, and the attributes `_last_result`, `_input_stash`,
`_output_stash`, `_packed` (each `none` while the attribute is unset). -/
structure PackmolState where
  structure_list : List StructureEntry
  options : Options
  last_result : Option RunResult
  input_stash : Option (List Line)
  output_stash : Option String
  packed : Option Value
deriving DecidableEq

/-- `Packmol.NONPACKMOL_OPTIONS`: option keys consumed internally and never
written as pass-through lines. -/
def NONPACKMOL_OPTIONS : List String :=
  ["command_line", "region_type", "dimension", "opt_force_field", "seed"]

/-- The default option table built in `Packmol.__init__`, in the order of
the dict literal. -/
def defaultOptions : Options :=
  [("command_line", Value.vstr "packmol"), ("region_type", Value.vstr "sphere"),
   ("seed", Value.vnone), ("dimension", Value.vnum 10),
   ("tolerance", Value.vnum 3), ("output", Value.vstr "packed.xyz"),
   ("nloop", Value.vnum 100), ("opt_force_field", Value.vstr "uff")]

/-- `Packmol.set_options`: fold the keyword list into the option dict,
last write wins per key. -/
def set_options (s : PackmolState) (kwargs : List (String × Value)) : PackmolState :=
  { s with options := kwargs.foldl (fun o kv => setOption o kv.1 kv.2) s.options }

/-- `Packmol.__init__(**kwargs)`: empty structure list, default options
updated by the keyword list, no run attributes set yet. -/
def packmolInit (kwargs : List (String × Value)) : PackmolState :=
  set_options
    { structure_list := [], options := defaultOptions, last_result := none,
      input_stash := none, output_stash := none, packed := none } kwargs

/-- `Packmol.add_structure`: append one entry.  The normalization of the
input into an xyz temp file (`convert_to_xyz`) is external I/O; the entry
records the resulting temp-file name. -/
def add_structure (s : PackmolState) (structName : String) (count : Int)
    (kwargs : Options) : PackmolState :=
  { s with structure_list := s.structure_list ++
      [{ structName := structName, number := count, options := kwargs }] }

/-- `Packmol.clear`: empty the structure list, everything else untouched. -/
def clear (s : PackmolState) : PackmolState :=
  { s with structure_list := [] }

/-- Does the second character list start with the first one? -/
def listStartsWith : List Char → List Char → Bool
  | [], _ => true
  | _ :: _, [] => false
  | a :: as, b :: bs => a == b && listStartsWith as bs

/-- Does the character list `s` contain `pat` as a contiguous sublist? -/
def listHasInfix (pat : List Char) : List Char → Bool
  | [] => listStartsWith pat []
  | s@(_ :: rest) => listStartsWith pat s || listHasInfix pat rest

/-- Substring test, modelling the Python test `"ERROR" in text`. -/
def strContains (s pat : String) : Bool :=
  listHasInfix pat.toList s.toList

/-- The integer written on the `seed` line: `hash(ranseed) % 10**9` where
`ranseed` is the seed option, replaced by `time.clock()` when falsy. -/
def seedLineValue (opts : Options) (env : RunEnv) : Int :=
  env.pyhash (if (getOpt opts "seed").truthy then getOpt opts "seed"
              else Value.vnum env.clock) % 10 ^ 9

/-- The first two lines of the input file: the filetype declaration and the
seed line. -/
def headerLines (opts : Options) (env : RunEnv) : List Line :=
  [Line.filetype, Line.seedLine (seedLineValue opts env)]

/-- The global pass-through option lines: every option whose key is not in
`NONPACKMOL_OPTIONS`, one line each.  Their relative order reproduces the
association-list order of the model; the order the program emits is the
CPython 2 dict iteration order of `self._options.items()`, which this
embedding does not capture. -/
def optionLines (opts : Options) : List Line :=
  (opts.filter (fun kv => !(NONPACKMOL_OPTIONS.contains kv.1))).map
    (fun kv => Line.optionLine kv.1 kv.2)

/-- The structure block written for one entry: structure and number lines,
then the region clause — an inside-sphere line when `region_type` is
`"sphere"`, `NotImplementedError` for any other truthy shape, nothing for
a falsy shape — then the per-entry option lines and the terminator. -/
def structureBlock (opts : Options) (e : StructureEntry) :
    Except PackError (List Line) :=
  let head := [Line.structureLine e.structName, Line.numberLine e.number]
  let tail := e.options.map (fun kv => Line.entryOption kv.1 kv.2) ++
    [Line.endStructure]
  if getOpt opts "region_type" = Value.vstr "sphere" then
    .ok (head ++ [Line.insideSphere (getOpt opts "dimension")] ++ tail)
  else if (getOpt opts "region_type").truthy then
    .error PackError.unsupportedRegion
  else
    .ok (head ++ tail)

/-- The concatenation of all structure blocks, failing at the first entry
whose block raises. -/
def structureBlocks (opts : Options) : List StructureEntry →
    Except PackError (List Line)
  | [] => .ok []
  | e :: rest =>
    match structureBlock opts e with
    | .error err => .error err
    | .ok ls =>
      match structureBlocks opts rest with
      | .error err => .error err
      | .ok more => .ok (ls ++ more)

/-- `Packmol._prepare_input_file`: the full content of the generated input
file as a line list (also stored into `_input_stash` by `pack` on
success). -/
def prepareLines (opts : Options) (structs : List StructureEntry)
    (env : RunEnv) : Except PackError (List Line) :=
  match structureBlocks opts structs with
  | .error e => .error e
  | .ok blocks => .ok (headerLines opts env ++ optionLines opts ++ blocks)

/-- The run outcome of `Packmol.pack` as a function of the option table,
structure list and run environment: serialization first, then the three
classification checks in source order (exit status, `"ERROR"` marker,
`"STOP"` marker), otherwise the success result dict. -/
def packOutcome (opts : Options) (structs : List StructureEntry)
    (env : RunEnv) : Except PackError RunResult :=
  match prepareLines opts structs env with
  | .error e => .error e
  | .ok _ =>
    if env.exitCode ≠ 0 then .error (PackError.hardExit env.exitCode)
    else if strContains env.output "ERROR" then .error PackError.hardError
    else if strContains env.output "STOP" then .error PackError.failToPack
    else .ok { filename := getOpt opts "output", output := env.output,
               energy := if env.hasOpenbabel then some env.energy else none }

/-- `Packmol.pack(output)`: update the `output` option when the argument is
truthy, serialize, run the subprocess (its exit status and captured stdout
come from `env`), classify, and on success store and return the result
dict.  Returns the updated state together with the returned value or the
raised exception. -/
def pack (s : PackmolState) (output : Value) (env : RunEnv) :
    PackmolState × Except PackError RunResult :=
  let s1 := if output.truthy then
      { s with options := setOption s.options "output" output } else s
  match prepareLines s1.options s1.structure_list env with
  | .error e => (s1, .error e)
  | .ok ls =>
    let s2 := { s1 with input_stash := some ls, output_stash := some env.output }
    if env.exitCode ≠ 0 then (s2, .error (PackError.hardExit env.exitCode))
    else if strContains env.output "ERROR" then (s2, .error PackError.hardError)
    else if strContains env.output "STOP" then (s2, .error PackError.failToPack)
    else
      let r : RunResult :=
        { filename := getOpt s2.options "output", output := env.output,
          energy := if env.hasOpenbabel then some env.energy else none }
      ({ s2 with last_result := some r,
                 packed := if env.hasOpenbabel then some (getOpt s2.options "output")
                           else s2.packed }, .ok r)

/-- `np.arange(start, stop, step)`: the `⌈(stop - start) / step⌉` values
`start + k * step`. -/
def arange (start stop step : Rat) : List Rat :=
  (List.range (Int.ceil ((stop - start) / step)).toNat).map
    (fun k : Nat => start + (k : Rat) * step)

/-- The loop body of `Packmol.autosize` over an explicit list of radii to
test.  Each step sets the `dimension` option and runs `pack`; success
returns the radius, `FailToPack` is caught and the loop continues, any
other exception propagates.  Besides the final state and the returned or
raised value, the list of radii actually tested (one `pack` invocation
each) is returned for instrumentation. -/
def autosizeGo (oracle : Rat → RunEnv) : PackmolState → List Rat →
    PackmolState × List Rat × Except PackError (Option Rat)
  | s, [] => (s, [], .ok none)
  | s, r :: rest =>
    match pack (set_options s [("dimension", Value.vnum r)]) Value.vnone
        (oracle r) with
    | (s2, .ok _) => (s2, [r], .ok (some r))
    | (s2, .error e) =>
      if e.isFailToPack then
        ((autosizeGo oracle s2 rest).1,
         r :: (autosizeGo oracle s2 rest).2.1,
         (autosizeGo oracle s2 rest).2.2)
      else (s2, [r], .error e)

/-- `Packmol.autosize(min_radius, max_radius, increment)`: probe the radii
`np.arange(min_radius, max_radius, increment)` in order; `.ok (some r)` is
the returned radius, `.ok none` the implicit `None` when the range is
exhausted, `.error e` a propagated exception. -/
def autosize (s : PackmolState) (min_radius max_radius increment : Rat)
    (oracle : Rat → RunEnv) :
    PackmolState × List Rat × Except PackError (Option Rat) :=
  autosizeGo oracle s (arange min_radius max_radius increment)

/-- The outcome of the single `pack` call `autosize` performs for radius
`r` starting from state `s`: set `dimension` to `r`, call `pack()` with no
output argument. -/
def runAt (s : PackmolState) (oracle : Rat → RunEnv) (r : Rat) :
    Except PackError RunResult :=
  (pack (set_options s [("dimension", Value.vnum r)]) Value.vnone (oracle r)).2

/-- Reference form of the autosize search over a fixed outcome function:
returns the tested radii and the final returned or raised value. -/
def searchSpec (f : Rat → Except PackError RunResult) :
    List Rat → List Rat × Except PackError (Option Rat)
  | [] => ([], .ok none)
  | r :: rest =>
    match f r with
    | .ok _ => ([r], .ok (some r))
    | .error e =>
      if e.isFailToPack then
        (r :: (searchSpec f rest).1, (searchSpec f rest).2)
      else ([r], .error e)

/-- Decidable equality for `Except`, needed so concrete run outcomes can
be evaluated by `decide`. -/
instance exceptDecEq {e a : Type} [DecidableEq e] [DecidableEq a] :
    DecidableEq (Except e a)
  | .ok x, .ok y =>
    if h : x = y then isTrue (congrArg Except.ok h)
    else isFalse (fun hc => h (Except.ok.inj hc))
  | .ok _, .error _ => isFalse (fun hc => Except.noConfusion hc)
  | .error _, .ok _ => isFalse (fun hc => Except.noConfusion hc)
  | .error x, .error y =>
    if h : x = y then isTrue (congrArg Except.error h)
    else isFalse (fun hc => h (Except.error.inj hc))

/-- A synthetic run environment for exercising `autosize`: the subprocess
soft-fails (prints the STOP marker) for radii below 5 and succeeds for
radii at or above 5. -/
def c2Oracle : Rat → RunEnv := fun r =>
  if 5 ≤ r then ⟨0, "packmol done", 1, fun _ => 0, false, 0⟩
  else ⟨0, "STOP", 1, fun _ => 0, false, 0⟩

/-- Updating the same dict key twice keeps only the second value. -/
theorem setOption_setOption_same (l : Options) (k : String) (v w : Value) :
    setOption (setOption l k v) k w = setOption l k w := by
  induction l with
  | nil => simp [setOption]
  | cons kv rest ih =>
    by_cases h : kv.1 = k
    · simp [setOption, h]
    · simp [setOption, h, ih]

theorem set_options_single (s : PackmolState) (k : String) (v : Value) :
    set_options s [(k, v)] =
      { s with options := setOption s.options k v } := by
  simp [set_options]

/-- A `pack` run never changes the structure list. -/
theorem pack_fst_structure_list (s : PackmolState) (output : Value)
    (env : RunEnv) :
    (pack s output env).1.structure_list = s.structure_list := by
  unfold pack
  by_cases ht : output.truthy
  all_goals simp only [ht, if_true, if_false, Bool.false_eq_true]
  all_goals cases hp : prepareLines _ _ env
  all_goals try rfl
  all_goals split_ifs
  all_goals rfl

/-- The option table after a `pack` run: unchanged, except that a truthy
`output` argument overwrites the `output` option before serialization. -/
theorem pack_fst_options (s : PackmolState) (output : Value) (env : RunEnv) :
    (pack s output env).1.options =
      (if output.truthy then setOption s.options "output" output
       else s.options) := by
  unfold pack
  by_cases ht : output.truthy
  all_goals simp only [ht, if_true, if_false, Bool.false_eq_true]
  all_goals cases hp : prepareLines _ _ env
  all_goals try rfl
  all_goals split_ifs
  all_goals rfl

/-- The returned or raised value of `pack` depends only on the option table
(after the `output` update), the structure list and the run environment. -/
theorem pack_snd_eq (s : PackmolState) (output : Value) (env : RunEnv) :
    (pack s output env).2 =
      packOutcome
        (if output.truthy then setOption s.options "output" output
         else s.options) s.structure_list env := by
  unfold pack packOutcome
  by_cases ht : output.truthy
  all_goals simp only [ht, if_true, if_false, Bool.false_eq_true]
  all_goals cases hp : prepareLines _ _ env
  all_goals simp only [hp]
  all_goals split_ifs
  all_goals rfl
/-- With the sphere region shape, every structure block carries an
inside-sphere line whose radius is the `dimension` option. -/
theorem structureBlocks_sphere (opts : Options)
    (hreg : getOpt opts "region_type" = Value.vstr "sphere") :
    ∀ structs : List StructureEntry,
      structureBlocks opts structs =
        .ok (structs.flatMap (fun e =>
          [Line.structureLine e.structName, Line.numberLine e.number,
           Line.insideSphere (getOpt opts "dimension")] ++
          e.options.map (fun kv => Line.entryOption kv.1 kv.2) ++
          [Line.endStructure]))
  | [] => by simp [structureBlocks]
  | e :: rest => by
    simp [structureBlocks, structureBlock, hreg,
      structureBlocks_sphere opts hreg rest]

/-- With a falsy region shape, the blocks are emitted without any region
clause. -/
theorem structureBlocks_noRegion (opts : Options)
    (hreg : (getOpt opts "region_type").truthy = false) :
    ∀ structs : List StructureEntry,
      structureBlocks opts structs =
        .ok (structs.flatMap (fun e =>
          [Line.structureLine e.structName, Line.numberLine e.number] ++
          e.options.map (fun kv => Line.entryOption kv.1 kv.2) ++
          [Line.endStructure]))
  | [] => by simp [structureBlocks]
  | e :: rest => by
    have hne : getOpt opts "region_type" ≠ Value.vstr "sphere" := by
      intro h
      rw [h] at hreg
      simp [Value.truthy] at hreg
    simp [structureBlocks, structureBlock, hne, hreg,
      structureBlocks_noRegion opts hreg rest]

/-- With a truthy non-sphere region shape, the first structure block raises
`NotImplementedError`. -/
theorem structureBlocks_unsupported (opts : Options) (e : StructureEntry)
    (rest : List StructureEntry)
    (hns : getOpt opts "region_type" ≠ Value.vstr "sphere")
    (htr : (getOpt opts "region_type").truthy = true) :
    structureBlocks opts (e :: rest) = .error PackError.unsupportedRegion := by
  simp [structureBlocks, structureBlock, hns, htr]
/-- When every probed radius soft-fails, the search tests the whole list
and returns the not-found sentinel. -/
theorem searchSpec_all_soft (f : Rat → Except PackError RunResult) :
    ∀ rs : List Rat, (∀ x ∈ rs, f x = .error PackError.failToPack) →
      searchSpec f rs = (rs, .ok none)
  | [], _ => rfl
  | r :: rest, h => by
    have hr := h r (List.mem_cons_self r rest)
    simp [searchSpec, hr, PackError.isFailToPack,
      searchSpec_all_soft f rest (fun x hx => h x (List.mem_cons_of_mem r hx))]

/-- When the radii before index `i` soft-fail and the radius at `i`
succeeds, the search stops at `i` and returns that radius. -/
theorem searchSpec_first_success (f : Rat → Except PackError RunResult) :
    ∀ (rs : List Rat) (i : Nat) (rS : Rat), rs.get? i = some rS →
      (∃ res, f rS = .ok res) →
      (∀ x ∈ rs.take i, f x = .error PackError.failToPack) →
      searchSpec f rs = (rs.take (i + 1), .ok (some rS))
  | [], i, rS, hget, _, _ => by simp at hget
  | r :: rest, 0, rS, hget, hsucc, _ => by
    simp only [List.get?] at hget
    injection hget with hget
    subst hget
    obtain ⟨res, hres⟩ := hsucc
    simp [searchSpec, hres]
  | r :: rest, i + 1, rS, hget, hsucc, hbefore => by
    have hr : f r = .error PackError.failToPack :=
      hbefore r (by simp [List.take])
    have ih := searchSpec_first_success f rest i rS (by simpa using hget) hsucc
      (fun x hx => hbefore x (List.mem_cons_of_mem r (by simpa using hx)))
    simp [searchSpec, hr, PackError.isFailToPack, ih]
/-- The single autosize probe at radius `r` is `packOutcome` with the
`dimension` option set to `r`. -/
theorem runAt_eq_packOutcome (s : PackmolState) (oracle : Rat → RunEnv)
    (r : Rat) :
    runAt s oracle r =
      packOutcome (setOption s.options "dimension" (Value.vnum r))
        s.structure_list (oracle r) := by
  rw [runAt, pack_snd_eq]
  simp [set_options, Value.truthy]

/-- The autosize loop computes `searchSpec` of the probe outcomes taken at
the initial state: the state mutations done by intermediate runs (stashes,
repeated `dimension` updates) do not affect later probe outcomes. -/
theorem autosizeGo_eq_searchSpec (s0 : PackmolState) (oracle : Rat → RunEnv) :
    ∀ (rs : List Rat) (s : PackmolState),
      s.structure_list = s0.structure_list →
      (s.options = s0.options ∨
        ∃ v, s.options = setOption s0.options "dimension" v) →
      (autosizeGo oracle s rs).2 = searchSpec (runAt s0 oracle) rs
  | [], s, _, _ => rfl
  | r :: rest, s, hstr, hopt => by
    have hkey : (pack (set_options s [("dimension", Value.vnum r)]) Value.vnone
        (oracle r)).2 = runAt s0 oracle r := by
      rw [pack_snd_eq, runAt_eq_packOutcome]
      simp only [set_options, List.foldl, Value.truthy, Bool.false_eq_true,
        if_false, hstr]
      rcases hopt with h | ⟨v, h⟩ <;> rw [h]
      rw [setOption_setOption_same]
    cases hp : pack (set_options s [("dimension", Value.vnum r)]) Value.vnone
        (oracle r) with
    | mk s2 out =>
      have hout : out = runAt s0 oracle r := by rw [← hkey, hp]
      have hs2str : s2.structure_list = s0.structure_list := by
        have := pack_fst_structure_list (set_options s [("dimension", Value.vnum r)])
          Value.vnone (oracle r)
        rw [hp] at this
        simpa [set_options, hstr] using this
      have hs2opt : ∃ v, s2.options = setOption s0.options "dimension" v := by
        have := pack_fst_options (set_options s [("dimension", Value.vnum r)])
          Value.vnone (oracle r)
        rw [hp] at this
        simp only [Value.truthy, Bool.false_eq_true, if_false, set_options,
          List.foldl] at this
        rcases hopt with h | ⟨v, h⟩
        · exact ⟨Value.vnum r, by rw [this, h]⟩
        · exact ⟨Value.vnum r, by rw [this, h, setOption_setOption_same]⟩
      cases out with
      | ok res =>
        simp only [autosizeGo, hp, searchSpec, ← hout]
      | error e =>
        by_cases he : e.isFailToPack
        · simp only [autosizeGo, hp, searchSpec, ← hout, he, if_true]
          have ih := autosizeGo_eq_searchSpec s0 oracle rest s2 hs2str (Or.inr hs2opt)
          simp [ih]
        · simp only [autosizeGo, hp, searchSpec, ← hout, he, if_false]
          simp [he]
/-- Membership in a mapped range, with the function kept abstract. -/
theorem mem_map_range (n : Nat) (f : Nat → Rat) (x : Rat)
    (hx : x ∈ (List.range n).map f) : ∃ k, k < n ∧ f k = x := by
  obtain ⟨k, hk, hfk⟩ := List.mem_map.mp hx
  exact ⟨k, List.mem_range.mp hk, hfk⟩

/-- Mapping a strictly monotone function over a range gives a strictly
increasing list. -/
theorem pairwise_map_range (n : Nat) (f : Nat → Rat)
    (hf : ∀ i j : Nat, i < j → f i < f j) :
    ((List.range n).map f).Pairwise (· < ·) := by
  rw [List.pairwise_map]
  exact (List.pairwise_lt_range n).imp (fun h => hf _ _ h)

/-- Every element of `arange start stop step` is `start + k * step` with
`k` below the ceiling bound. -/
theorem arange_mem_form (a b step : Rat) (x : Rat) (hx : x ∈ arange a b step) :
    ∃ k : Nat, x = a + (k : Rat) * step ∧
      (k : Int) < Int.ceil ((b - a) / step) := by
  rw [arange] at hx
  obtain ⟨k, hk, hfk⟩ := mem_map_range _ _ x hx
  exact ⟨k, hfk.symm, Int.lt_toNat.mp hk⟩

/-- For a positive step, `arange` elements lie in `[start, stop)`. -/
theorem arange_mem_lt (a b step : Rat) (hstep : 0 < step) (x : Rat)
    (hx : x ∈ arange a b step) : a ≤ x ∧ x < b := by
  obtain ⟨k, rfl, hk⟩ := arange_mem_form a b step x hx
  constructor
  · have : (0 : Rat) ≤ (k : Rat) * step :=
      mul_nonneg (Nat.cast_nonneg k) hstep.le
    linarith
  · have h1 : ((k : Int) : Rat) < (b - a) / step := Int.lt_ceil.mp hk
    have h2 : (k : Rat) < (b - a) / step := by exact_mod_cast h1
    have h3 : (k : Rat) * step < b - a := (lt_div_iff₀ hstep).mp h2
    linarith

/-- For a positive step, `arange` is strictly increasing. -/
theorem arange_pairwise (a b step : Rat) (hstep : 0 < step) :
    (arange a b step).Pairwise (· < ·) := by
  rw [arange]
  refine pairwise_map_range _ _ ?_
  intro i j hij
  have hc : (i : Rat) < (j : Rat) := by exact_mod_cast hij
  have := mul_lt_mul_of_pos_right hc hstep
  linarith
/-- Claim C1: for every run (every state whose session serializes
successfully, and every subprocess behaviour), the outcome is classified in
this fixed order: a non-zero exit status raises the hard process-error
failure and nothing else is checked; otherwise an ERROR marker in the
captured output raises the hard staging failure (even when a STOP marker is
also present, as the witness shows); otherwise a STOP marker raises the
soft `FailToPack` failure; otherwise the run succeeds with the result
dict. -/
theorem c1_classification_order (s : PackmolState) (env : RunEnv)
    (ls : List Line)
    (hok : prepareLines s.options s.structure_list env = .ok ls) :
    (env.exitCode ≠ 0 →
      (pack s Value.vnone env).2 = .error (PackError.hardExit env.exitCode)) ∧
    (env.exitCode = 0 → strContains env.output "ERROR" = true →
      (pack s Value.vnone env).2 = .error PackError.hardError) ∧
    (env.exitCode = 0 → strContains env.output "ERROR" = false →
      strContains env.output "STOP" = true →
      (pack s Value.vnone env).2 = .error PackError.failToPack) ∧
    (env.exitCode = 0 → strContains env.output "ERROR" = false →
      strContains env.output "STOP" = false →
      (pack s Value.vnone env).2 =
        .ok { filename := getOpt s.options "output", output := env.output,
              energy := if env.hasOpenbabel then some env.energy else none }) := by
  rw [pack_snd_eq]
  have ht : Value.vnone.truthy = false := rfl
  rw [ht]
  simp only [Bool.false_eq_true, if_false]
  unfold packOutcome
  rw [hok]
  refine ⟨?_, ?_, ?_, ?_⟩
  · intro h
    simp [h]
  · intro h0 herr
    simp [h0, herr]
  · intro h0 herr hstop
    simp [h0, herr, hstop]
  · intro h0 herr hstop
    simp [h0, herr, hstop]

/-- Claim C9, amended: a run never mutates the structure list, and a run
without an output argument (or with a falsy one) never mutates the option
table; a truthy output argument however overwrites the `output` option
before serialization (the original claim, that no run invocation mutates
the options, is refuted by `c9_counterexample`). -/
theorem c9_run_frame (s : PackmolState) (output : Value) (env : RunEnv) :
    (pack s output env).1.structure_list = s.structure_list ∧
    (pack s output env).1.options =
      (if output.truthy then setOption s.options "output" output
       else s.options) ∧
    (pack s Value.vnone env).1.options = s.options := by
  refine ⟨pack_fst_structure_list s output env, pack_fst_options s output env, ?_⟩
  rw [pack_fst_options]
  rfl

/-- Counterexample to C9 as stated: a run invoked with an explicit output
filename mutates the SessionOptions mapping. -/
theorem c9_counterexample :
    (pack (packmolInit []) (Value.vstr "other.xyz")
        ⟨0, "", 1, fun _ => 0, false, 0⟩).1.options ≠
      (packmolInit []).options := by decide

/-- Claim C10: with zero structure entries, serialization succeeds for
every option table — every region shape value included — because the
unsupported-region check sits inside the per-entry loop; consequently the
unsupported-region error can only arise for a non-empty entry list. -/
theorem c10_empty_session (opts : Options) (structs : List StructureEntry)
    (env : RunEnv) :
    prepareLines opts [] env =
      .ok (headerLines opts env ++ optionLines opts) ∧
    (prepareLines opts structs env = .error PackError.unsupportedRegion →
      structs ≠ []) := by
  constructor
  · unfold prepareLines structureBlocks
    simp
  · intro h hempty
    subst hempty
    unfold prepareLines structureBlocks at h
    simp at h
/-- Claim C8: `clear` after `add_structure` leaves the option table
untouched and the structure list empty, and the session then serializes to
the header and global option lines alone, with zero structure blocks. -/
theorem c8_clear_frame (s : PackmolState) (name : String) (count : Int)
    (kw : Options) (env : RunEnv) :
    (clear (add_structure s name count kw)).options = s.options ∧
    (clear (add_structure s name count kw)).structure_list = [] ∧
    prepareLines (clear (add_structure s name count kw)).options
        (clear (add_structure s name count kw)).structure_list env =
      .ok (headerLines s.options env ++ optionLines s.options) ∧
    (headerLines s.options env ++ optionLines s.options).countP
      (fun l => l.isStructLine) = 0 := by
  refine ⟨rfl, rfl, ?_, ?_⟩
  · unfold prepareLines structureBlocks
    simp [clear, add_structure]
  · rw [List.countP_eq_zero]
    intro l hl
    rcases List.mem_append.mp hl with hm | hm
    · simp only [headerLines, List.mem_cons, List.not_mem_nil, or_false] at hm
      rcases hm with rfl | rfl <;> simp [Line.isStructLine]
    · obtain ⟨kv, _, rfl⟩ := List.mem_map.mp hm
      simp [Line.isStructLine]

/-- Claim C5: for a session with at least one structure entry, serializing
with region shape `"sphere"` emits one inside-sphere clause per entry whose
radius is the `dimension` option; any other truthy shape raises
`NotImplementedError` at serialization time; and a falsy shape serializes
successfully with no region clause at all. -/
theorem c5_region_shapes (opts : Options) (structs : List StructureEntry)
    (env : RunEnv) (hne : structs ≠ []) :
    (getOpt opts "region_type" = Value.vstr "sphere" →
      prepareLines opts structs env =
        .ok (headerLines opts env ++ optionLines opts ++
          structs.flatMap (fun e =>
            [Line.structureLine e.structName, Line.numberLine e.number,
             Line.insideSphere (getOpt opts "dimension")] ++
            e.options.map (fun kv => Line.entryOption kv.1 kv.2) ++
            [Line.endStructure]))) ∧
    (getOpt opts "region_type" ≠ Value.vstr "sphere" →
      (getOpt opts "region_type").truthy = true →
      prepareLines opts structs env = .error PackError.unsupportedRegion) ∧
    ((getOpt opts "region_type").truthy = false →
      prepareLines opts structs env =
        .ok (headerLines opts env ++ optionLines opts ++
          structs.flatMap (fun e =>
            [Line.structureLine e.structName, Line.numberLine e.number] ++
            e.options.map (fun kv => Line.entryOption kv.1 kv.2) ++
            [Line.endStructure]))) := by
  refine ⟨?_, ?_, ?_⟩
  · intro hreg
    unfold prepareLines
    rw [structureBlocks_sphere opts hreg structs]
  · intro hns htr
    obtain ⟨e, rest, rfl⟩ := List.exists_cons_of_ne_nil hne
    unfold prepareLines
    rw [structureBlocks_unsupported opts e rest hns htr]
  · intro htr
    unfold prepareLines
    rw [structureBlocks_noRegion opts htr structs]
/-- Claim C6, amended: only a successful run replaces the stored last
result — a run with exit status 0 whose output has neither marker stores
and returns the success dict, while a run that raises any failure leaves
the previous last result in place (the original claim, that the last
result is replaced win-or-lose, is refuted by `c6_counterexample`). -/
theorem c6_last_result (s : PackmolState) (env : RunEnv) (ls : List Line)
    (hok : prepareLines s.options s.structure_list env = .ok ls) :
    (env.exitCode = 0 → strContains env.output "ERROR" = false →
      strContains env.output "STOP" = false →
      (pack s Value.vnone env).2 =
        .ok { filename := getOpt s.options "output", output := env.output,
              energy := if env.hasOpenbabel then some env.energy else none } ∧
      (pack s Value.vnone env).1.last_result =
        some { filename := getOpt s.options "output", output := env.output,
               energy := if env.hasOpenbabel then some env.energy else none }) ∧
    (∀ e : PackError, (pack s Value.vnone env).2 = .error e →
      (pack s Value.vnone env).1.last_result = s.last_result) := by
  unfold pack
  have ht : Value.vnone.truthy = false := rfl
  rw [ht]
  simp only [Bool.false_eq_true, if_false]
  rw [hok]
  constructor
  · intro h0 herr hstop
    simp [h0, herr, hstop]
  · intro e
    split_ifs <;> simp

/-- Counterexample to C6 as stated: a run with exit status 0 whose output
contains ERROR raises the hard failure, yet the stored last result still
holds the previous result (captured text OLD), not any record of the
failed run whose captured text differs. -/
theorem c6_counterexample :
    (pack
        ⟨[], defaultOptions,
         some ⟨Value.vstr "old.xyz", "OLD", none⟩, none, none, none⟩
        Value.vnone ⟨0, "ERROR xx", 1, fun _ => 0, false, 0⟩).2 =
      .error PackError.hardError ∧
    (pack
        ⟨[], defaultOptions,
         some ⟨Value.vstr "old.xyz", "OLD", none⟩, none, none, none⟩
        Value.vnone ⟨0, "ERROR xx", 1, fun _ => 0, false, 0⟩).1.last_result =
      some ⟨Value.vstr "old.xyz", "OLD", none⟩ ∧
    ("OLD" : String) ≠ "ERROR xx" := ⟨rfl, rfl, by decide⟩
/-- Claim C2: for a positive increment, `autosize` tests the sizes
`np.arange(minSize, maxSize, increment)` — each of the form
`minSize + k * increment`, all strictly below `maxSize`, in strictly
increasing order — invoking one run per size with the `dimension` option
set to it, and when the sizes before index `i` soft-fail and the size at
index `i` succeeds it performs exactly the first `i + 1` runs and returns
that size. -/
theorem c2_autosize_first_success (s : PackmolState) (oracle : Rat → RunEnv)
    (minR maxR inc : Rat) (i : Nat) (rS : Rat)
    (hinc : 0 < inc)
    (hget : (arange minR maxR inc).get? i = some rS)
    (hsucc : ∃ res, runAt s oracle rS = .ok res)
    (hbefore : ∀ x ∈ (arange minR maxR inc).take i,
      runAt s oracle x = .error PackError.failToPack) :
    (autosize s minR maxR inc oracle).2.1 =
      (arange minR maxR inc).take (i + 1) ∧
    (autosize s minR maxR inc oracle).2.2 = .ok (some rS) ∧
    (∀ x ∈ arange minR maxR inc, minR ≤ x ∧ x < maxR ∧
      ∃ k : Nat, x = minR + (k : Rat) * inc) ∧
    (arange minR maxR inc).Pairwise (· < ·) := by
  have hb := autosizeGo_eq_searchSpec s oracle (arange minR maxR inc) s rfl
    (Or.inl rfl)
  have hs := searchSpec_first_success (runAt s oracle) (arange minR maxR inc)
    i rS hget hsucc hbefore
  rw [autosize] at *
  rw [hb] at *
  refine ⟨by rw [hs], by rw [hs], ?_, arange_pairwise minR maxR inc hinc⟩
  intro x hx
  obtain ⟨hle, hlt⟩ := arange_mem_lt minR maxR inc hinc x hx
  obtain ⟨k, hk, _⟩ := arange_mem_form minR maxR inc x hx
  exact ⟨hle, hlt, k, hk⟩

/-- Claim C4: when every size in the range soft-fails, `autosize` tests
every step of `np.arange(minSize, maxSize, increment)` — all at least
`minSize` and strictly below `maxSize` — raises nothing, and returns the
`none` sentinel rather than any size. -/
theorem c4_autosize_exhaust (s : PackmolState) (oracle : Rat → RunEnv)
    (minR maxR inc : Rat) (hinc : 0 < inc)
    (hall : ∀ x ∈ arange minR maxR inc,
      runAt s oracle x = .error PackError.failToPack) :
    (autosize s minR maxR inc oracle).2.1 = arange minR maxR inc ∧
    (autosize s minR maxR inc oracle).2.2 = .ok none ∧
    ∀ x ∈ arange minR maxR inc, minR ≤ x ∧ x < maxR := by
  have hb := autosizeGo_eq_searchSpec s oracle (arange minR maxR inc) s rfl
    (Or.inl rfl)
  have hs := searchSpec_all_soft (runAt s oracle) (arange minR maxR inc) hall
  rw [autosize, hb, hs]
  exact ⟨rfl, rfl, fun x hx => arange_mem_lt minR maxR inc hinc x hx⟩

/-- Claim C3: inside `autosize`, a probe that raises `FailToPack` is caught
and the search continues with the remaining sizes, while a probe that
raises any other failure ends the loop immediately with that error and no
further size is tested; and a direct `pack` call on a STOP run receives
`FailToPack` as a raised error, not as a return value. -/
theorem c3_soft_vs_hard (s : PackmolState) (r : Rat) (rest : List Rat)
    (oracle : Rat → RunEnv) (e : PackError) (env : RunEnv) (ls : List Line) :
    (runAt s oracle r = .error PackError.failToPack →
      (autosizeGo oracle s (r :: rest)).2.1 =
        r :: (searchSpec (runAt s oracle) rest).1 ∧
      (autosizeGo oracle s (r :: rest)).2.2 =
        (searchSpec (runAt s oracle) rest).2) ∧
    (runAt s oracle r = .error e → e.isFailToPack = false →
      (autosizeGo oracle s (r :: rest)).2.1 = [r] ∧
      (autosizeGo oracle s (r :: rest)).2.2 = .error e) ∧
    (prepareLines s.options s.structure_list env = .ok ls →
      env.exitCode = 0 → strContains env.output "ERROR" = false →
      strContains env.output "STOP" = true →
      (pack s Value.vnone env).2 = .error PackError.failToPack) := by
  have hb := autosizeGo_eq_searchSpec s oracle (r :: rest) s rfl (Or.inl rfl)
  refine ⟨?_, ?_, ?_⟩
  · intro hsoft
    rw [hb]
    simp [searchSpec, hsoft, PackError.isFailToPack]
  · intro herr hne
    rw [hb]
    simp [searchSpec, herr, hne]
  · intro hok h0 herr hstop
    rw [pack_snd_eq]
    have ht : Value.vnone.truthy = false := rfl
    rw [ht]
    simp only [Bool.false_eq_true, if_false]
    unfold packOutcome
    rw [hok]
    simp [h0, herr, hstop]
/-- Concrete evaluation of `np.arange(1, 10, 1)`. -/
theorem arange_one_ten_one : arange 1 10 1 = [1, 2, 3, 4, 5, 6, 7, 8, 9] := by
  have h9 : (Int.ceil ((10 - 1 : Rat) / 1)).toNat = 9 := by
    have h : Int.ceil ((10 - 1 : Rat) / 1) = 9 := by norm_num
    rw [h]
    decide
  rw [arange, h9]
  norm_num [List.range_succ]

/-- Witness for C2, the worked example of the spec: with runs soft-failing
below radius 5 and succeeding at or above 5, `autosize(1, 10, 1)` performs
exactly the five runs at sizes 1, 2, 3, 4, 5 and returns 5. -/
theorem c2_autosize_first_success_witness :
    (autosize (packmolInit []) 1 10 1 c2Oracle).2.1 = [1, 2, 3, 4, 5] ∧
    (autosize (packmolInit []) 1 10 1 c2Oracle).2.2 = .ok (some 5) := by
  have h := c2_autosize_first_success (packmolInit []) c2Oracle 1 10 1 4 5
    (by norm_num)
    (by rw [arange_one_ten_one]; decide)
    (⟨⟨Value.vstr "packed.xyz", "packmol done", none⟩, by decide⟩)
    (by rw [arange_one_ten_one]; decide)
  obtain ⟨h1, h2, _, _⟩ := h
  rw [arange_one_ten_one] at h1
  exact ⟨h1.trans (by decide), h2⟩
/-- Witness for C1 at a concrete session and run whose output contains both
markers with exit status 0: the classification is the hard ERROR failure. -/
theorem c1_classification_order_witness :
    (pack (packmolInit []) Value.vnone
        ⟨0, "ERROR then STOP", 1, fun _ => 0, false, 0⟩).2 =
      .error PackError.hardError ∧
    strContains "ERROR then STOP" "ERROR" = true ∧
    strContains "ERROR then STOP" "STOP" = true :=
  ⟨(c1_classification_order (packmolInit [])
      ⟨0, "ERROR then STOP", 1, fun _ => 0, false, 0⟩ _ rfl).2.1 rfl rfl,
   by decide, by decide⟩

/-- Witness for C4: with every run soft-failing, `autosize(1, 10, 1)` tests
the full range and returns the sentinel. -/
theorem c4_autosize_exhaust_witness :
    (autosize (packmolInit []) 1 10 1
        (fun _ => ⟨0, "STOP", 1, fun _ => 0, false, 0⟩)).2.1 =
      arange 1 10 1 ∧
    (autosize (packmolInit []) 1 10 1
        (fun _ => ⟨0, "STOP", 1, fun _ => 0, false, 0⟩)).2.2 = .ok none ∧
    ∀ x ∈ arange 1 10 1, (1 : Rat) ≤ x ∧ x < 10 :=
  c4_autosize_exhaust (packmolInit [])
    (fun _ => ⟨0, "STOP", 1, fun _ => 0, false, 0⟩) 1 10 1 (by norm_num)
    (by rw [arange_one_ten_one]; decide)

/-- Witness for C3: a soft-failing probe continues to the remaining sizes,
a hard-failing probe propagates `hardError` after a single test, and a
direct STOP run raises `FailToPack`. -/
theorem c3_soft_vs_hard_witness :
    ((autosizeGo (fun _ => ⟨0, "STOP", 1, fun _ => 0, false, 0⟩)
        (packmolInit []) [1, 2]).2.1 =
      1 :: (searchSpec
        (runAt (packmolInit []) (fun _ => ⟨0, "STOP", 1, fun _ => 0, false, 0⟩))
        [2]).1 ∧
     (autosizeGo (fun _ => ⟨0, "STOP", 1, fun _ => 0, false, 0⟩)
        (packmolInit []) [1, 2]).2.2 =
      (searchSpec
        (runAt (packmolInit []) (fun _ => ⟨0, "STOP", 1, fun _ => 0, false, 0⟩))
        [2]).2) ∧
    ((autosizeGo (fun _ => ⟨0, "ERROR", 1, fun _ => 0, false, 0⟩)
        (packmolInit []) [1, 2]).2.1 = [1] ∧
     (autosizeGo (fun _ => ⟨0, "ERROR", 1, fun _ => 0, false, 0⟩)
        (packmolInit []) [1, 2]).2.2 = .error PackError.hardError) ∧
    (pack (packmolInit []) Value.vnone
        ⟨0, "STOP", 1, fun _ => 0, false, 0⟩).2 =
      .error PackError.failToPack :=
  ⟨(c3_soft_vs_hard (packmolInit []) 1 [2]
      (fun _ => ⟨0, "STOP", 1, fun _ => 0, false, 0⟩) PackError.failToPack
      ⟨0, "STOP", 1, fun _ => 0, false, 0⟩ []).1 (by decide),
   (c3_soft_vs_hard (packmolInit []) 1 [2]
      (fun _ => ⟨0, "ERROR", 1, fun _ => 0, false, 0⟩) PackError.hardError
      ⟨0, "ERROR", 1, fun _ => 0, false, 0⟩ []).2.1 (by decide) (by decide),
   (c3_soft_vs_hard (packmolInit []) 1 [2]
      (fun _ => ⟨0, "STOP", 1, fun _ => 0, false, 0⟩) PackError.failToPack
      ⟨0, "STOP", 1, fun _ => 0, false, 0⟩ _).2.2 rfl rfl (by decide) (by decide)⟩
/-- Witness for C5 at a one-entry session: the default sphere shape
serializes with the inside-sphere clause, and the shape `"cube"` raises the
unsupported-region error. -/
theorem c5_region_shapes_witness :
    prepareLines defaultOptions [⟨"mol.xyz", 2, []⟩]
        ⟨0, "x", 1, fun _ => 0, false, 0⟩ =
      .ok (headerLines defaultOptions ⟨0, "x", 1, fun _ => 0, false, 0⟩ ++
        optionLines defaultOptions ++
        ([⟨"mol.xyz", 2, []⟩] : List StructureEntry).flatMap (fun e =>
          [Line.structureLine e.structName, Line.numberLine e.number,
           Line.insideSphere (getOpt defaultOptions "dimension")] ++
          e.options.map (fun kv => Line.entryOption kv.1 kv.2) ++
          [Line.endStructure])) ∧
    prepareLines (setOption defaultOptions "region_type" (Value.vstr "cube"))
        [⟨"mol.xyz", 2, []⟩] ⟨0, "x", 1, fun _ => 0, false, 0⟩ =
      .error PackError.unsupportedRegion :=
  ⟨(c5_region_shapes defaultOptions [⟨"mol.xyz", 2, []⟩]
      ⟨0, "x", 1, fun _ => 0, false, 0⟩ (by simp)).1 rfl,
   (c5_region_shapes (setOption defaultOptions "region_type" (Value.vstr "cube"))
      [⟨"mol.xyz", 2, []⟩] ⟨0, "x", 1, fun _ => 0, false, 0⟩ (by simp)).2.1
      (by decide) (by decide)⟩

/-- Witness for C6 at concrete runs: a clean run stores the success dict as
the last result; a STOP run leaves the last result unchanged. -/
theorem c6_last_result_witness :
    (pack (packmolInit []) Value.vnone
        ⟨0, "all good", 1, fun _ => 0, false, 0⟩).1.last_result =
      some ⟨Value.vstr "packed.xyz", "all good", none⟩ ∧
    (pack (packmolInit []) Value.vnone
        ⟨0, "STOP", 1, fun _ => 0, false, 0⟩).1.last_result =
      (packmolInit []).last_result :=
  ⟨((c6_last_result (packmolInit [])
      ⟨0, "all good", 1, fun _ => 0, false, 0⟩ _ rfl).1 rfl rfl rfl).2,
   (c6_last_result (packmolInit [])
      ⟨0, "STOP", 1, fun _ => 0, false, 0⟩ _ rfl).2
      PackError.failToPack (by decide)⟩

/-- Witness for C10: the unsupported shape `"cube"` serializes fine with no
entries, and with one entry (where it does raise) the entry list is
non-empty. -/
theorem c10_empty_session_witness :
    prepareLines (setOption defaultOptions "region_type" (Value.vstr "cube")) []
        ⟨0, "", 1, fun _ => 0, false, 0⟩ =
      .ok (headerLines (setOption defaultOptions "region_type" (Value.vstr "cube"))
          ⟨0, "", 1, fun _ => 0, false, 0⟩ ++
        optionLines (setOption defaultOptions "region_type" (Value.vstr "cube"))) ∧
    ([⟨"m.xyz", 1, []⟩] : List StructureEntry) ≠ [] :=
  ⟨(c10_empty_session (setOption defaultOptions "region_type" (Value.vstr "cube"))
      [⟨"m.xyz", 1, []⟩] ⟨0, "", 1, fun _ => 0, false, 0⟩).1,
   (c10_empty_session (setOption defaultOptions "region_type" (Value.vstr "cube"))
      [⟨"m.xyz", 1, []⟩] ⟨0, "", 1, fun _ => 0, false, 0⟩).2 (by decide)⟩
